import Mathlib

/-!
Shallow embedding of `src/directed.rs` from the `two_phase_channel` crate:
a directed two-phase channel holding two slots (`read_only` and `writable`)
inside a heap allocation, with three pointer types issued at creation, a
`flush` operation copying the writable slot into the read-only slot, and an
address-checked teardown.

Memory is modelled explicitly: each live channel occupies one allocation,
identified by a natural number; an address is an allocation id paired with a
field selector.  Raw pointer reads and writes resolve addresses against the
heap, so aliasing, frame effects and cross-channel pointer mixing are
representable.  Rust panics (the `assert_eq!` calls in `destroy`) are
modelled as `none` results.
-/

namespace TwoPhaseChannel

/-- Modelled from the spec: the capability token authorising `flush`
(`ChannelKey` in the external key subsystem, not under `src/`).  Its payload
is never consumed by the channel logic, so it is a unit-like proof object. -/
structure ChannelKey where

/-- Modelled from the spec: the capability token authorising data access
(`DataKey` in the external key subsystem, not under `src/`).  Its payload is
never consumed by the channel logic, so it is a unit-like proof object. -/
structure DataKey where

/-- The two value-typed fields of a `DirectedChannel` allocation. -/
inductive Field where
  | read_only : Field
  | writable : Field
deriving DecidableEq, Repr

/-- A memory address: which allocation, and which field inside it.
Corresponds to the `*const Data` / `*mut Data` raw pointers of the source. -/
structure Addr where
  alloc : Nat
  field : Field
deriving DecidableEq, Repr

/-- `struct DirectedChannel<Data> { read_only: Data, writable: Data }`
(src/directed.rs lines 17-21). -/
structure DirectedChannel (Data : Type) where
  read_only : Data
  writable : Data
deriving Repr

/-- The heap: each allocation id may hold a live `DirectedChannel`. -/
def Heap (Data : Type) : Type := Nat → Option (DirectedChannel Data)

/-- `struct DirectedChannelPointer<Data> { channel: Box<DirectedChannel<Data>> }`
(src/directed.rs lines 27-31): sole owner of one heap-resident channel,
identified here by its allocation id. -/
structure DirectedChannelPointer where
  alloc : Nat
deriving DecidableEq, Repr

/-- `struct ReadOnlyDataPointer<Data> { data: *const Data }`
(src/directed.rs lines 37-41). -/
structure ReadOnlyDataPointer where
  data : Addr
deriving DecidableEq, Repr

/-- `struct WritableDataPointer<Data> { data: *mut Data }`
(src/directed.rs lines 47-51). -/
structure WritableDataPointer where
  data : Addr
deriving DecidableEq, Repr

/-- Read one field of a channel allocation. -/
def DirectedChannel.readField {Data : Type} (c : DirectedChannel Data) :
    Field → Data
  | Field.read_only => c.read_only
  | Field.writable => c.writable

/-- Overwrite one field of a channel allocation. -/
def DirectedChannel.writeField {Data : Type} (c : DirectedChannel Data) :
    Field → Data → DirectedChannel Data
  | Field.read_only, v => { c with read_only := v }
  | Field.writable, v => { c with writable := v }

/-- Dereference a raw pointer: read the value at an address, when the
allocation is live. -/
def Heap.read {Data : Type} (h : Heap Data) (a : Addr) : Option Data :=
  (h a.alloc).map (fun c => c.readField a.field)

/-- Write through a raw pointer: overwrite the value at an address, when the
allocation is live; all other memory is untouched. -/
def Heap.write {Data : Type} (h : Heap Data) (a : Addr) (v : Data) :
    Heap Data :=
  fun n => if n = a.alloc then (h n).map (fun c => c.writeField a.field v)
    else h n

/-- `DirectedChannel::create` (src/directed.rs lines 62-87): allocate the
channel with the two given initial values at a fresh allocation id and hand
out the three pointers.  The `ReadOnlyDataPointer` stores the address of the
`read_only` field and the `WritableDataPointer` the address of the
`writable` field of the new allocation. -/
def DirectedChannel.create {Data : Type} (h : Heap Data) (alloc : Nat)
    (read_only writable : Data) :
    Heap Data × DirectedChannelPointer × ReadOnlyDataPointer ×
      WritableDataPointer :=
  (fun n => if n = alloc then some ⟨read_only, writable⟩ else h n,
   ⟨alloc⟩,
   ⟨⟨alloc, Field.read_only⟩⟩,
   ⟨⟨alloc, Field.writable⟩⟩)

/-- `DirectedChannel::destroy` (src/directed.rs lines 93-114): check that the
writable pointer and every presented read-only pointer store exactly the
corresponding slot address of the channel owned by `cp`; on success move both
values out and release the allocation, otherwise panic (`none`, from the
`assert_eq!` calls). -/
def DirectedChannel.destroy {Data : Type} (h : Heap Data)
    (cp : DirectedChannelPointer) (ros : List ReadOnlyDataPointer)
    (wp : WritableDataPointer) : Option (Heap Data × Data × Data) :=
  let channel_writable_data_pointer : Addr := ⟨cp.alloc, Field.writable⟩
  if wp.data = channel_writable_data_pointer then
    let channel_read_only_data_pointer : Addr := ⟨cp.alloc, Field.read_only⟩
    if ros.all (fun p => p.data = channel_read_only_data_pointer) then
      (h cp.alloc).map (fun channel =>
        (fun n => if n = cp.alloc then none else h n,
         channel.read_only, channel.writable))
    else none
  else none

/-- `DirectedChannel::destroy_single` (src/directed.rs lines 120-130):
delegates to `destroy` with the singleton collection. -/
def DirectedChannel.destroy_single {Data : Type} (h : Heap Data)
    (cp : DirectedChannelPointer) (ro : ReadOnlyDataPointer)
    (wp : WritableDataPointer) : Option (Heap Data × Data × Data) :=
  DirectedChannel.destroy h cp [ro] wp

/-- `DirectedChannel::create_equal` (src/directed.rs lines 137-145): seed
both slots from one value by cloning it (value semantics: the clone is the
value itself). -/
def DirectedChannel.create_equal {Data : Type} (h : Heap Data) (alloc : Nat)
    (data : Data) :
    Heap Data × DirectedChannelPointer × ReadOnlyDataPointer ×
      WritableDataPointer :=
  DirectedChannel.create h alloc data data

/-- `DirectedChannel::flush` (src/directed.rs lines 147-149):
`self.read_only = self.writable.clone()`. -/
def DirectedChannel.flush {Data : Type} (c : DirectedChannel Data)
    (channel_key : ChannelKey) : DirectedChannel Data :=
  { c with read_only := c.writable }

/-- `DirectedChannelPointer::flush` (src/directed.rs lines 154-157): through
the owned box, `channel.read_only = channel.writable.clone()`; the rest of
memory is untouched. -/
def DirectedChannelPointer.flush {Data : Type} (h : Heap Data)
    (cp : DirectedChannelPointer) (channel_key : ChannelKey) : Heap Data :=
  fun n => if n = cp.alloc then
      (h n).map (fun channel => { channel with read_only := channel.writable })
    else h n

/-- `DirectedChannelPointer::destroy` (src/directed.rs lines 162-168):
shorthand delegating to `DirectedChannel::destroy`. -/
def DirectedChannelPointer.destroy {Data : Type} (h : Heap Data)
    (cp : DirectedChannelPointer) (ros : List ReadOnlyDataPointer)
    (wp : WritableDataPointer) : Option (Heap Data × Data × Data) :=
  DirectedChannel.destroy h cp ros wp

/-- `DirectedChannelPointer::destroy_single` (src/directed.rs lines 171-177):
shorthand delegating to `DirectedChannel::destroy_single`. -/
def DirectedChannelPointer.destroy_single {Data : Type} (h : Heap Data)
    (cp : DirectedChannelPointer) (ro : ReadOnlyDataPointer)
    (wp : WritableDataPointer) : Option (Heap Data × Data × Data) :=
  DirectedChannel.destroy_single h cp ro wp

/-- `ReadOnlyDataPointer::get` (src/directed.rs lines 182-184): unchecked
dereference of the stored address. -/
def ReadOnlyDataPointer.get {Data : Type} (p : ReadOnlyDataPointer)
    (data_key : DataKey) (h : Heap Data) : Option Data :=
  Heap.read h p.data

/-- `WritableDataPointer::get` (src/directed.rs lines 189-191): unchecked
dereference of the stored address. -/
def WritableDataPointer.get {Data : Type} (p : WritableDataPointer)
    (data_key : DataKey) (h : Heap Data) : Option Data :=
  Heap.read h p.data

/-- Assignment through `WritableDataPointer::get_mut`
(src/directed.rs lines 194-196): `*p.get_mut(key) = v` writes `v` at the
stored address. -/
def WritableDataPointer.get_mut_assign {Data : Type}
    (p : WritableDataPointer) (data_key : DataKey) (h : Heap Data)
    (v : Data) : Heap Data :=
  Heap.write h p.data v

/-- `impl IDirectedChannel for DirectedChannelPointer` (src/directed.rs
lines 221-225): the dynamic-interface flush calls
`DirectedChannelPointer::flush`. -/
def IDirectedChannel.flush {Data : Type} (h : Heap Data)
    (cp : DirectedChannelPointer) (channel_key : ChannelKey) : Heap Data :=
  DirectedChannelPointer.flush h cp channel_key

/-- The sequential protocol of the crate's own test (src/directed.rs lines
240-247): for x = 1..=n, assign x through `WritableDataPointer::get_mut` and
then flush through the channel pointer. -/
def protocolLoop (dk : DataKey) (ck : ChannelKey)
    (cp : DirectedChannelPointer) (wp : WritableDataPointer)
    (h : Heap Nat) : Nat → Heap Nat
  | 0 => h
  | n + 1 =>
    DirectedChannelPointer.flush
      (WritableDataPointer.get_mut_assign wp dk (protocolLoop dk ck cp wp h n)
        (n + 1))
      cp ck

/-! Theorems settling the claims. -/

/-- C1: for every pair of values a and b, `create(a, b)` immediately followed
by teardown with the three returned pointers (via `destroy` with the
singleton collection, or via `destroy_single`) returns exactly the pair
(a, b), both values unchanged. -/
theorem create_then_destroy_returns_initial_values {Data : Type}
    (h : Heap Data) (alloc : Nat) (a b : Data) :
    (DirectedChannel.destroy (DirectedChannel.create h alloc a b).1
        (DirectedChannel.create h alloc a b).2.1
        [(DirectedChannel.create h alloc a b).2.2.1]
        (DirectedChannel.create h alloc a b).2.2.2).map (fun r => r.2) =
      some (a, b) ∧
    (DirectedChannel.destroy_single (DirectedChannel.create h alloc a b).1
        (DirectedChannel.create h alloc a b).2.1
        (DirectedChannel.create h alloc a b).2.2.1
        (DirectedChannel.create h alloc a b).2.2.2).map (fun r => r.2) =
      some (a, b) := by
  simp [DirectedChannel.create, DirectedChannel.destroy,
    DirectedChannel.destroy_single]

/-- C2: after `DirectedChannelPointer::flush`, the read-only slot is
content-equal to the writable slot, the writable slot holds exactly its
pre-flush value, and the two slots remain independent storage: overwriting
the read-only slot afterwards does not change the writable slot. -/
theorem flush_makes_read_only_equal_writable {Data : Type} (h : Heap Data)
    (cp : DirectedChannelPointer) (key : ChannelKey)
    (c : DirectedChannel Data) :
    (DirectedChannel.flush c key).read_only = c.writable ∧
    (DirectedChannel.flush c key).writable = c.writable ∧
    Heap.read (DirectedChannelPointer.flush h cp key)
        ⟨cp.alloc, Field.read_only⟩ =
      Heap.read h ⟨cp.alloc, Field.writable⟩ ∧
    Heap.read (DirectedChannelPointer.flush h cp key)
        ⟨cp.alloc, Field.writable⟩ =
      Heap.read h ⟨cp.alloc, Field.writable⟩ ∧
    ∀ v : Data,
      Heap.read
          (Heap.write (DirectedChannelPointer.flush h cp key)
            ⟨cp.alloc, Field.read_only⟩ v)
          ⟨cp.alloc, Field.writable⟩ =
        Heap.read (DirectedChannelPointer.flush h cp key)
          ⟨cp.alloc, Field.writable⟩ := by
  refine ⟨rfl, rfl, ?_, ?_, ?_⟩ <;>
    · simp only [Heap.read, DirectedChannelPointer.flush, Heap.write]
      cases h cp.alloc <;>
        simp [DirectedChannel.readField, DirectedChannel.writeField]

/-- C4: flushing twice with no intervening write leaves the heap in exactly
the state reached after the first flush, and likewise for the flush defined
directly on the channel value. -/
theorem flush_idempotent {Data : Type} (h : Heap Data)
    (cp : DirectedChannelPointer) (k k' : ChannelKey)
    (c : DirectedChannel Data) :
    DirectedChannelPointer.flush (DirectedChannelPointer.flush h cp k) cp k' =
      DirectedChannelPointer.flush h cp k ∧
    DirectedChannel.flush (DirectedChannel.flush c k) k' =
      DirectedChannel.flush c k := by
  constructor
  · funext n
    simp only [DirectedChannelPointer.flush]
    by_cases hn : n = cp.alloc <;> cases h n <;> simp [hn]
  · rfl

/-- C6: the three flush entry points agree: the dynamic-interface flush
equals `DirectedChannelPointer::flush` as an operation on the heap, and
`DirectedChannelPointer::flush` applies `DirectedChannel::flush` to the
channel owned by the pointer while leaving every other allocation
untouched. -/
theorem flush_entry_points_agree {Data : Type} (h : Heap Data)
    (cp : DirectedChannelPointer) (key : ChannelKey) :
    IDirectedChannel.flush h cp key = DirectedChannelPointer.flush h cp key ∧
    ∀ n : Nat,
      DirectedChannelPointer.flush h cp key n =
        if n = cp.alloc then (h n).map (fun c => DirectedChannel.flush c key)
        else h n := by
  exact ⟨rfl, fun n => rfl⟩

/-- C7: `destroy_single` returns the same result (including the panic
cases, modelled as `none`) as `destroy` applied to the singleton collection
containing the one read-only data pointer, and the channel-pointer shorthand
agrees as well. -/
theorem destroy_single_eq_destroy_singleton {Data : Type} (h : Heap Data)
    (cp : DirectedChannelPointer) (ro : ReadOnlyDataPointer)
    (wp : WritableDataPointer) :
    DirectedChannel.destroy_single h cp ro wp =
      DirectedChannel.destroy h cp [ro] wp ∧
    DirectedChannelPointer.destroy_single h cp ro wp =
      DirectedChannel.destroy h cp [ro] wp := by
  exact ⟨rfl, rfl⟩

/-- C8: immediately after `create_equal(v)` and before any flush, reading
through the returned read-only data pointer and through the returned
writable data pointer both yield exactly v. -/
theorem create_equal_both_slots_equal_seed {Data : Type} (h : Heap Data)
    (alloc : Nat) (v : Data) (dk : DataKey) :
    ReadOnlyDataPointer.get (DirectedChannel.create_equal h alloc v).2.2.1 dk
        (DirectedChannel.create_equal h alloc v).1 = some v ∧
    WritableDataPointer.get (DirectedChannel.create_equal h alloc v).2.2.2 dk
        (DirectedChannel.create_equal h alloc v).1 = some v := by
  simp [DirectedChannel.create_equal, DirectedChannel.create,
    ReadOnlyDataPointer.get, WritableDataPointer.get, Heap.read,
    DirectedChannel.readField]

/-- Helper: `destroy` returns `none` (panics) whenever the writable pointer
or some presented read-only pointer stores an address different from the
corresponding slot address of the channel being destroyed. -/
theorem destroy_none_of_mismatch {Data : Type} (h : Heap Data)
    (cp : DirectedChannelPointer) (ros : List ReadOnlyDataPointer)
    (wp : WritableDataPointer)
    (hmis : wp.data ≠ ⟨cp.alloc, Field.writable⟩ ∨
      ∃ p ∈ ros, p.data ≠ ⟨cp.alloc, Field.read_only⟩) :
    DirectedChannel.destroy h cp ros wp = none := by
  rcases hmis with h1 | ⟨p, hp, hne⟩
  · simp [DirectedChannel.destroy, h1]
  · by_cases h2 : wp.data = (⟨cp.alloc, Field.writable⟩ : Addr)
    · have hall : ¬ ros.all
          (fun q => decide (q.data = (⟨cp.alloc, Field.read_only⟩ : Addr))) =
          true := by
        simp only [List.all_eq_true, decide_eq_true_eq]
        intro hall
        exact hne (hall p hp)
      simp [DirectedChannel.destroy, h2, hall]
    · simp [DirectedChannel.destroy, h2]

/-- C5: any call to `destroy` in which some presented pointer's stored
address differs from the corresponding slot address of the channel being
destroyed panics (modelled as `none`) and returns no result, and likewise
for `destroy_single` with a mismatched pointer. -/
theorem destroy_mismatched_pointer_panics {Data : Type} (h : Heap Data)
    (cp : DirectedChannelPointer) (ros : List ReadOnlyDataPointer)
    (wp : WritableDataPointer) (ro : ReadOnlyDataPointer)
    (hmis : wp.data ≠ ⟨cp.alloc, Field.writable⟩ ∨
      ∃ p ∈ ros, p.data ≠ ⟨cp.alloc, Field.read_only⟩)
    (hro : wp.data ≠ ⟨cp.alloc, Field.writable⟩ ∨
      ro.data ≠ ⟨cp.alloc, Field.read_only⟩) :
    DirectedChannel.destroy h cp ros wp = none ∧
    DirectedChannel.destroy_single h cp ro wp = none := by
  refine ⟨destroy_none_of_mismatch h cp ros wp hmis, ?_⟩
  refine destroy_none_of_mismatch h cp [ro] wp ?_
  rcases hro with h1 | h2
  · exact Or.inl h1
  · exact Or.inr ⟨ro, by simp, h2⟩

/-- Witness for C5: two channels live at allocations 0 and 1; destroying
channel 0 while presenting the read-only pointer of channel 1 panics. -/
theorem destroy_mismatched_pointer_panics_witness :
    DirectedChannel.destroy
        (fun n => if n = 0 then some ⟨(1 : Nat), 2⟩
          else if n = 1 then some ⟨3, 4⟩ else none)
        ⟨0⟩ [⟨⟨1, Field.read_only⟩⟩] ⟨⟨0, Field.writable⟩⟩ = none ∧
    DirectedChannel.destroy_single
        (fun n => if n = 0 then some ⟨(1 : Nat), 2⟩
          else if n = 1 then some ⟨3, 4⟩ else none)
        ⟨0⟩ ⟨⟨1, Field.read_only⟩⟩ ⟨⟨0, Field.writable⟩⟩ = none :=
  destroy_mismatched_pointer_panics _ ⟨0⟩ _ _ ⟨⟨1, Field.read_only⟩⟩
    (Or.inr ⟨⟨⟨1, Field.read_only⟩⟩, by simp, by decide⟩)
    (Or.inr (by decide))

/-- Helper: along the sequential protocol the channel allocation stays
live. -/
theorem protocolLoop_alloc_some (dk : DataKey) (ck : ChannelKey)
    (alloc : Nat) (h : Heap Nat) (c0 : DirectedChannel Nat)
    (hc : h alloc = some c0) (n : Nat) :
    ∃ c, protocolLoop dk ck ⟨alloc⟩ ⟨⟨alloc, Field.writable⟩⟩ h n alloc =
      some c := by
  induction n with
  | zero => exact ⟨c0, hc⟩
  | succ n ih =>
    obtain ⟨c, hc'⟩ := ih
    refine ⟨⟨n + 1, n + 1⟩, ?_⟩
    simp [protocolLoop, DirectedChannelPointer.flush,
      WritableDataPointer.get_mut_assign, Heap.write, hc',
      DirectedChannel.writeField]

/-- Helper: after iteration n + 1 of the sequential protocol both slots hold
n + 1. -/
theorem protocolLoop_succ_alloc (dk : DataKey) (ck : ChannelKey)
    (alloc : Nat) (h : Heap Nat) (c0 : DirectedChannel Nat)
    (hc : h alloc = some c0) (n : Nat) :
    protocolLoop dk ck ⟨alloc⟩ ⟨⟨alloc, Field.writable⟩⟩ h (n + 1) alloc =
      some ⟨n + 1, n + 1⟩ := by
  obtain ⟨c, hc'⟩ := protocolLoop_alloc_some dk ck alloc h c0 hc n
  simp [protocolLoop, DirectedChannelPointer.flush,
    WritableDataPointer.get_mut_assign, Heap.write, hc',
    DirectedChannel.writeField]

/-- C3: starting from `create`, the protocol that for x = 1..=n assigns x
through `WritableDataPointer::get_mut` and then flushes leaves, after the
n-th iteration, both the read-only slot and the writable slot equal to n. -/
theorem sequential_protocol_final_state (h : Heap Nat) (alloc a b n : Nat)
    (hn : 0 < n) (dk : DataKey) (ck : ChannelKey) :
    Heap.read (protocolLoop dk ck (DirectedChannel.create h alloc a b).2.1
        (DirectedChannel.create h alloc a b).2.2.2
        (DirectedChannel.create h alloc a b).1 n)
      ⟨alloc, Field.read_only⟩ = some n ∧
    Heap.read (protocolLoop dk ck (DirectedChannel.create h alloc a b).2.1
        (DirectedChannel.create h alloc a b).2.2.2
        (DirectedChannel.create h alloc a b).1 n)
      ⟨alloc, Field.writable⟩ = some n := by
  cases n with
  | zero => exact absurd hn (Nat.lt_irrefl 0)
  | succ m =>
    have hstep := protocolLoop_succ_alloc dk ck alloc
      (DirectedChannel.create h alloc a b).1 ⟨a, b⟩
      (by simp [DirectedChannel.create]) m
    constructor <;>
      · simp only [DirectedChannel.create, Heap.read] at hstep ⊢
        simp [hstep, DirectedChannel.readField]

/-- Witness for C3: n = 3 starting from two zero-initialised slots. -/
theorem sequential_protocol_final_state_witness :
    0 < 3 ∧
    (Heap.read (protocolLoop ⟨⟩ ⟨⟩
        (DirectedChannel.create (fun _ => none) 0 0 0).2.1
        (DirectedChannel.create (fun _ => none) 0 0 0).2.2.2
        (DirectedChannel.create (fun _ => none) 0 0 0).1 3)
      ⟨0, Field.read_only⟩ = some 3 ∧
    Heap.read (protocolLoop ⟨⟩ ⟨⟩
        (DirectedChannel.create (fun _ => none) 0 0 0).2.1
        (DirectedChannel.create (fun _ => none) 0 0 0).2.2.2
        (DirectedChannel.create (fun _ => none) 0 0 0).1 3)
      ⟨0, Field.writable⟩ = some 3) :=
  ⟨Nat.zero_lt_succ 2,
   sequential_protocol_final_state (fun _ => none) 0 0 0 3 (Nat.zero_lt_succ 2)
     ⟨⟩ ⟨⟩⟩

/-- C9: the two slots occupy disjoint storage: the read-only and writable
pointers returned by `create` store distinct addresses; assigning through
`WritableDataPointer::get_mut` leaves the content of every read-only slot of
every allocation unchanged, on any heap (hence in particular immediately
after creation and after any number of flushes); and reading through the
read-only pointer after such an assignment still yields the original
read-only value. -/
theorem slots_disjoint_write_frame {Data : Type} (h : Heap Data)
    (alloc : Nat) (a b : Data) :
    (DirectedChannel.create h alloc a b).2.2.1.data ≠
      (DirectedChannel.create h alloc a b).2.2.2.data ∧
    (∀ (h2 : Heap Data) (dk : DataKey) (v : Data) (m : Nat),
      Heap.read
          (WritableDataPointer.get_mut_assign
            (DirectedChannel.create h alloc a b).2.2.2 dk h2 v)
          ⟨m, Field.read_only⟩ =
        Heap.read h2 ⟨m, Field.read_only⟩) ∧
    (∀ (dk : DataKey) (v : Data),
      ReadOnlyDataPointer.get (DirectedChannel.create h alloc a b).2.2.1 dk
          (WritableDataPointer.get_mut_assign
            (DirectedChannel.create h alloc a b).2.2.2 dk
            (DirectedChannel.create h alloc a b).1 v) = some a) := by
  refine ⟨?_, ?_, ?_⟩
  · simp [DirectedChannel.create]
  · intro h2 dk v m
    simp only [DirectedChannel.create, WritableDataPointer.get_mut_assign,
      Heap.write, Heap.read]
    by_cases hm : m = alloc
    · subst hm
      cases h2 m <;> simp [DirectedChannel.writeField, DirectedChannel.readField]
    · simp [hm]
  · intro dk v
    simp [DirectedChannel.create, WritableDataPointer.get_mut_assign,
      ReadOnlyDataPointer.get, Heap.write, Heap.read,
      DirectedChannel.writeField, DirectedChannel.readField]

/-- C10: `destroy` accepts the empty collection of read-only data pointers:
with the matching channel pointer and writable data pointer and zero
read-only pointers presented, it succeeds and returns both slot values. -/
theorem destroy_empty_read_only_collection_succeeds {Data : Type}
    (h : Heap Data) (alloc : Nat) (a b : Data) :
    (DirectedChannel.destroy (DirectedChannel.create h alloc a b).1
        (DirectedChannel.create h alloc a b).2.1 []
        (DirectedChannel.create h alloc a b).2.2.2).map (fun r => r.2) =
      some (a, b) := by
  simp [DirectedChannel.create, DirectedChannel.destroy]

end TwoPhaseChannel
